import Mathlib

/-!
# Mouse-Click-Automator: the main process (`src/index.js`)

A shallow embedding of the click scheduler, the F9 hotkey toggle, the profile
`Delete` request and the settings-file commands of `src/index.js`, with the
properties of the specification stated over it.

Module-level variables of the script become fields of a state record that each
function takes and returns. Calls into `robotjs` and `webContents.send` are
appended to a log kept in the state. The Node event loop is represented by the
list of interval timers that are currently armed; a tick of a timer runs the
callback that was stored with it. The file `options.json` is a record of its
parsed content and of whether it can be written; sqlite3, where the script
hands it statement text built from request data, is a parameter.
-/

namespace ClickAutomator

/-! ## Scheduler: data -/

/-- Mouse buttons understood by `robot.mouseClick` / `robot.mouseToggle`. -/
inductive Button
  | left
  | right
  | middle
  deriving DecidableEq, Repr

/-- A truthy `data.type`, by the `case` of `mouseButtonTypeInputs` it selects;
`other` is any truthy value matching none of the three cases. -/
inductive ClickType
  | single
  | double
  | hold
  | other
  deriving DecidableEq, Repr

/-- A truthy `data.repeat`, by what `mouseButtonClick` observes of it: whether
it is the string `'loop'`, and otherwise the result of `parseInt` on it
(`count n` when `parseInt` returns the integer `n`, `nan` when it returns NaN). -/
inductive Repeat
  | loop
  | count (n : Int)
  | nan
  deriving DecidableEq, Repr

/-- First argument of `robot.mouseToggle`. -/
inductive Direction
  | down
  | up
  deriving DecidableEq, Repr

/-- Calls that leave the main process: the Input Driver (`robot`) and the
notifications sent to the renderer through `mainWindow.webContents.send`. -/
inductive Effect
  /-- Call `robot.mouseClick(button)`. -/
  | mouseClick (button : Button)
  /-- Call `robot.mouseToggle(direction, button)`; the button is `none` when the
  variable passed (`holdMouseButton`) is still `undefined`. -/
  | mouseToggle (direction : Direction) (button : Option Button)
  /-- Send `'autoclick-stopped'` with payload `{ success }`. -/
  | autoclickStopped (success : Bool)
  /-- Send `'background-hotkeys'` with payload `{ start }`. -/
  | backgroundHotkeys (start : Bool)
  deriving DecidableEq, Repr

/-- Payload of a `'start-autoclick'` request. A field is `none` when it is
missing, `null` or otherwise falsy (what `!data.field` tests). -/
structure StartData where
  input : Option Button
  type : Option ClickType
  repeatField : Option Repeat
  interval : Option Nat
  deriving DecidableEq, Repr

/-- An armed interval timer: the handle returned by `setInterval` and the
values captured by the callback `() => mouseButtonClick(data.input, data.type,
data.repeat)`. -/
structure Timer where
  id : Nat
  input : Button
  type : ClickType
  repeatField : Repeat
  interval : Option Nat
  deriving DecidableEq, Repr

/-- Module-level variables of `src/index.js` used by the scheduler, the armed
timers of the event loop, and the log of effects emitted so far (oldest first).
`currentNumber` is a JavaScript number (a double) that only ever holds the
integers from 0 to 2^53, see `increment`. `none` stands for `undefined`. -/
structure State where
  running : Bool
  autoClickInterval : Option Nat
  isMouseButtonHold : Option Bool
  holdMouseButton : Option Button
  currentNumber : Int
  timers : List Timer
  nextTimer : Nat
  log : List Effect
  deriving DecidableEq, Repr

/-- State right after the script is loaded: `running = false`,
`currentNumber = 0`, the other variables `undefined`, no timer, nothing
emitted. -/
def State.init : State :=
  { running := false
    autoClickInterval := none
    isMouseButtonHold := none
    holdMouseButton := none
    currentNumber := 0
    timers := []
    nextTimer := 0
    log := [] }

/-! ## Scheduler: operations -/

/-- The value 2^53, the largest the counter takes. -/
def maxCount : Int := 9007199254740992

/-- Model of `currentNumber++` in double arithmetic, on the values the counter
takes (0 to 2^53, see `run_counter_bounds`): below 2^53 the successor is exact,
and 2^53 + 1 rounds back to 2^53, so from there the counter no longer moves. -/
def increment (c : Int) : Int :=
  if c < maxCount then c + 1 else c

/-- Append one effect to the log. -/
def emit (s : State) (e : Effect) : State :=
  { s with log := s.log ++ [e] }

/-- Model of `clearInterval(handle)`: disarm the timer with that handle;
`undefined` or an already cleared handle changes nothing. -/
def clearInterval (s : State) (handle : Option Nat) : State :=
  match handle with
  | none => s
  | some h => { s with timers := s.timers.filter (fun t => t.id != h) }

/-- Model of `setInterval(callback, interval)`: arm a new timer with a fresh
handle and return the handle. -/
def setInterval (s : State) (input : Button) (type : ClickType) (rep : Repeat)
    (interval : Option Nat) : State × Nat :=
  ({ s with
      timers := s.timers ++ [{ id := s.nextTimer, input := input, type := type,
                               repeatField := rep, interval := interval }]
      nextTimer := s.nextTimer + 1 },
   s.nextTimer)

/-- Model of `mouseButtonTypeInputs(input, type)`. -/
def mouseButtonTypeInputs (s : State) (input : Button) (type : ClickType) : State :=
  match type with
  | .single => emit s (.mouseClick input)
  | .double => emit (emit s (.mouseClick input)) (.mouseClick input)
  | .hold =>
      emit { s with isMouseButtonHold := some true, holdMouseButton := some input }
        (.mouseToggle .down (some input))
  | .other => s

/-- Model of `mouseButtonClick(input, type, repeat)`. The assignment
`isProcessing = true` of the `'loop'` case writes a variable nothing reads and
is left out. -/
def mouseButtonClick (s : State) (input : Button) (type : ClickType) (rep : Repeat) : State :=
  match rep with
  | .loop => mouseButtonTypeInputs s input type
  | .count repeatCount =>
      if s.currentNumber < repeatCount then
        mouseButtonTypeInputs { s with currentNumber := increment s.currentNumber } input type
      else if s.currentNumber = repeatCount then
        let s1 :=
          if s.isMouseButtonHold = some true then
            { emit s (.mouseToggle .up s.holdMouseButton) with isMouseButtonHold := some false }
          else s
        let s2 := clearInterval s1 s1.autoClickInterval
        emit { s2 with currentNumber := 0, running := false } (.autoclickStopped true)
      else s
  | .nan => s

/-- Model of `startAutoClick(buttonClick, interval)`, the callback given by the
values it captures. -/
def startAutoClick (s : State) (input : Button) (type : ClickType) (rep : Repeat)
    (interval : Option Nat) : State :=
  let s1 := { s with running := true }
  if s1.isMouseButtonHold = some true then s1
  else
    let r := setInterval s1 input type rep interval
    { r.1 with autoClickInterval := some r.2 }

/-- Model of the `'start-autoclick'` handler; `data = none` is a missing
payload. -/
def startAutoclickHandler (s : State) (data : Option StartData) : State :=
  match data with
  | none => s
  | some d =>
    match d.input, d.type, d.repeatField with
    | some input, some type, some rep =>
        startAutoClick (mouseButtonClick s input type rep) input type rep d.interval
    | _, _, _ => s

/-- Model of the `'stop-autoclick'` handler. -/
def stopAutoclickHandler (s : State) : State :=
  let s1 :=
    if s.isMouseButtonHold = some true then
      { emit s (.mouseToggle .up s.holdMouseButton) with isMouseButtonHold := some false }
    else s
  clearInterval s1 s1.autoClickInterval

/-- One firing of the interval timer with handle `id`: run its callback if the
timer is still armed, otherwise nothing happens. -/
def tick (s : State) (id : Nat) : State :=
  match s.timers.find? (fun t => t.id == id) with
  | none => s
  | some t => mouseButtonClick s t.input t.type t.repeatField

/-- Model of the callback registered for the F9 global shortcut. -/
def hotkeyF9 (s : State) : State :=
  if !s.running then
    emit { s with running := true } (.backgroundHotkeys true)
  else
    { emit s (.backgroundHotkeys false) with running := false }

/-- What the event queue delivers to the scheduler. -/
inductive Event
  | start (data : Option StartData)
  | stop
  | tick (id : Nat)
  | hotkey
  deriving DecidableEq, Repr

/-- Handle one event. -/
def step (s : State) : Event → State
  | .start data => startAutoclickHandler s data
  | .stop => stopAutoclickHandler s
  | .tick id => tick s id
  | .hotkey => hotkeyF9 s

/-- Handle a sequence of events, in order. -/
def run (s : State) (events : List Event) : State :=
  events.foldl step s

/-- Whether the timer with handle `id` is armed. -/
def armed (s : State) (id : Nat) : Bool :=
  s.timers.any (fun t => t.id == id)

/-- Fire timer `id` again and again until it is no longer armed, for at most
`fuel` firings; `none` when the timer is still armed after `fuel` firings. -/
def fireUntilCancelled : Nat → Nat → State → Option State
  | 0, id, s => if armed s id then none else some s
  | fuel + 1, id, s =>
      if armed s id then fireUntilCancelled fuel id (tick s id) else some s

/-- Number of `robot.mouseClick(b)` calls in a log. -/
def clicks (b : Button) (log : List Effect) : Nat :=
  log.count (.mouseClick b)

/-- Number of `'autoclick-stopped' { success: true }` notifications in a log. -/
def stoppedNotifications (log : List Effect) : Nat :=
  log.count (.autoclickStopped true)

/-- Buttons that are down after a log of effects, starting from the set `held`:
`mouseToggle('down', b)` adds `b`, `mouseToggle('up', b)` removes it. -/
def pressed (held : List Button) : List Effect → List Button
  | [] => held
  | .mouseToggle .down (some b) :: rest => pressed (b :: held.filter (· != b)) rest
  | .mouseToggle .up (some b) :: rest => pressed (held.filter (· != b)) rest
  | _ :: rest => pressed held rest

/-! ## Settings file and profile store: data -/

/-- JSON values: what `JSON.parse` returns for `options.json`, what the
renderer sends as option values, and what profile columns hold (numbers
restricted to integers). -/
inductive Value
  | null
  | bool (b : Bool)
  | num (n : Int)
  | str (s : String)
  | arr (items : List Value)
  | obj (props : List (String × Value))
  deriving Repr

/-- JavaScript truthiness of a value. -/
def Value.truthy : Value → Bool
  | .null => false
  | .bool b => b
  | .num n => n != 0
  | .str s => s != ""
  | .arr _ => true
  | .obj _ => true

/-- JavaScript `!value`. -/
def Value.not (v : Value) : Value :=
  .bool (!v.truthy)

/-- The own properties of a plain JavaScript object, in insertion order. -/
abbrev Document := List (String × Value)

/-- Read `doc[key]`; `none` is `undefined`. -/
def Document.get : Document → String → Option Value
  | [], _ => none
  | (k, v) :: rest, key => if k = key then some v else Document.get rest key

/-- Assignment `doc[key] = value` on a plain object, for an ordinary key: an
existing property keeps its place, a new one is added at the end. -/
def Document.set : Document → String → Value → Document
  | [], key, value => [(key, value)]
  | (k, v) :: rest, key, value =>
      if k = key then (key, value) :: rest else (k, v) :: Document.set rest key value

/-- Property names with a meaning of their own in an assignment: `__proto__`
(on objects), `length` and names made of digits only, array indices among them
(on arrays). -/
def specialKey (key : String) : Bool :=
  key == "__proto__" || key == "length" || (key.data != [] && key.data.all Char.isDigit)

/-- An option id as the renderer sends it (`data.inputId`, `option.id`): the id
of an input field, an ordinary property name. -/
structure FieldId where
  name : String
  ordinary : specialKey name = false

/-- The field id `loopInput`. -/
def FieldId.loopInput : FieldId := ⟨"loopInput", by decide⟩

/-- The field id `repeatSetTimesInput`. -/
def FieldId.repeatSetTimesInput : FieldId := ⟨"repeatSetTimesInput", by decide⟩

/-- What `JSON.stringify(options)` serialises after the assignment
`options[key] = value` with an ordinary key, for any value `options` that
`JSON.parse` can return. On a plain object the property is set. On an array the
assignment adds a property that is not an element, which `JSON.stringify`
leaves out; on a boolean, number or string it has no effect (the script is not
in strict mode); in both cases the value serialised is the one that was read. -/
def Value.assign (options : Value) (key : String) (value : Value) : Value :=
  match options with
  | .obj props => .obj (Document.set props key value)
  | other => other

/-- The file `options.json`: its content as `JSON.parse` reads it (`none` when
the file is missing or is not valid JSON), and whether `fs.writeFileSync`
succeeds on it. -/
structure SettingsFile where
  content : Option Value
  writable : Bool

/-- A row of the `profiles` table: the key column `id` and the other columns
(`title` and the twelve option columns) by name. -/
structure Profile where
  id : Int
  columns : Document

/-- The profile store: the rows of `profiles`, and whether the connection is in
a state in which sqlite3 answers every statement with an error. -/
structure Db where
  rows : List Profile
  failing : Bool

/-- Error passed by sqlite3 to the callback of `db.run` / `db.all`. -/
inductive DbError
  | sqlite
  deriving DecidableEq, Repr

/-- What sqlite3 does with a statement whose text is built from caller-supplied
fragments: `db.run(sql, values)` either ends in an error or leaves a new store.
The engine is outside the script and is a parameter of the functions that call
it this way. -/
abbrev SqliteRun := String → List Value → Db → Except DbError Db

/-- Payload of an `'update-profile'` request. -/
structure UpdateData where
  id : Value
  title : Value
  options : List (FieldId × Value)

/-- Payload of a `'database-handler'` request, for the requests `'Get'` and
`'Delete'` (`id = none` is a missing `data.id`). -/
inductive DbRequest
  | get
  | delete (id : Option Int)
  deriving DecidableEq, Repr

/-- Value an IPC handler hands back to the renderer. -/
inductive Reply
  | undefined
  | bool (b : Bool)
  | profiles (rows : List Profile)
  | rejected (e : DbError)

/-- Payload of an `'options-handler'` request. -/
inductive OptionsRequest
  | get
  | save (inputId : FieldId) (inputValue : Value)

/-! ## Settings file and profile store: operations -/

/-- The object built by `createDefaultOptions`. -/
def defaultSettings : Document :=
  [("mouseButtonInput", .str "left"),
   ("delayCheckbox", .bool false),
   ("delayAmount", .str "1000"),
   ("typeInput", .str "single"),
   ("repeatSetTimesInput", .bool false),
   ("repeatTimes", .str "1"),
   ("alwaysOnTopCheckbox", .bool false),
   ("loopInput", .bool true),
   ("hoursInput", .str "0"),
   ("minutesInput", .str "0"),
   ("secondsInput", .str "0"),
   ("millisecondsInput", .str "0")]

/-- Model of `createDefaultOptions()`: the file afterwards. The write is not
guarded; when it fails the call throws and the file is as it was. -/
def createDefaultOptions (file : SettingsFile) : SettingsFile :=
  if file.writable then { file with content := some (.obj defaultSettings) } else file

/-- Model of `getOptions()`: the parsed content, or `null` when reading or
parsing throws. -/
def getOptions (file : SettingsFile) : Value :=
  match file.content with
  | some options => options
  | none => .null

/-- Model of `saveOptionsToFile(options)`: the file afterwards. When the write
throws, the error is caught and logged and the file is as it was. -/
def saveOptionsToFile (file : SettingsFile) (options : Value) : SettingsFile :=
  if file.writable then { file with content := some options } else file

/-- Model of `saveOptions(input, value)`: the file afterwards. -/
def saveOptions (file : SettingsFile) (input : FieldId) (value : Value) : SettingsFile :=
  let options := getOptions file
  if !options.truthy then file
  else if input.name = "loopInput" then
    saveOptionsToFile file
      ((options.assign "repeatSetTimesInput" value.not).assign "loopInput" value)
  else if input.name = "repeatSetTimesInput" then
    saveOptionsToFile file
      ((options.assign "loopInput" value.not).assign "repeatSetTimesInput" value)
  else
    saveOptionsToFile file (options.assign input.name value)

/-- Model of the `'options-handler'` handler: the file afterwards and the value
returned (`none` when the handler returns nothing). -/
def optionsHandler (file : SettingsFile) (data : Option OptionsRequest) :
    SettingsFile × Option Value :=
  match data with
  | none => (file, none)
  | some .get => (file, some (getOptions file))
  | some (.save inputId inputValue) => (saveOptions file inputId inputValue, none)

/-- Model of `convertOptionsFormat(existingOptions)`. -/
def convertOptionsFormat (existingOptions : List (FieldId × Value)) : Document :=
  existingOptions.foldl (fun newFormat o => newFormat.set o.1.name o.2) []

/-- The text `sqlStatement` that `updateProfileOptions` builds. -/
def updateStatement (options : List (FieldId × Value)) : String :=
  let setStatements := ", ".intercalate (options.map (fun option => option.1.name ++ " = ?"))
  "UPDATE profiles SET " ++ setStatements ++ ", title = ? WHERE id = ?"

/-- Model of `updateProfileOptions(id, title, options)`: the statement text and
the values (option values, then `title`, then `id`) are handed to sqlite3; the
promise rejects on an error and resolves otherwise. -/
def updateProfileOptions (sqlite : SqliteRun) (db : Db) (id : Value) (title : Value)
    (options : List (FieldId × Value)) : Except DbError Db :=
  let values := options.map (fun option => option.2)
  sqlite (updateStatement options) (values ++ [title, id]) db

/-- Model of the `'update-profile'` handler: the store and the file afterwards.
A rejected `updateProfileOptions` makes the handler throw at the `await`,
before `saveOptionsToFile`. -/
def updateProfileHandler (sqlite : SqliteRun) (db : Db) (file : SettingsFile)
    (data : Option UpdateData) : Db × SettingsFile :=
  match data with
  | none => (db, file)
  | some d =>
    let formatOptions := convertOptionsFormat d.options
    match updateProfileOptions sqlite db d.id d.title d.options with
    | .error _ => (db, file)
    | .ok db1 => (db1, saveOptionsToFile file (.obj formatOptions))

/-- One answer of sqlite3 to an `UPDATE ... WHERE id = ?`, used in examples: the
statement is accepted and no row has the id, so the table is left as it was. -/
def sqliteNoRowMatches : SqliteRun :=
  fun _ _ db => if db.failing then .error .sqlite else .ok db

/-- Model of `deleteProfile(id)`, with sqlite3 running
`DELETE FROM profiles WHERE id = ?`: the promise rejects on an error and
otherwise resolves with `this.changes > 0`. -/
def deleteProfile (db : Db) (id : Int) : Except DbError (Db × Bool) :=
  if db.failing then .error .sqlite
  else
    let changes := (db.rows.filter (fun r => r.id == id)).length
    .ok ({ db with rows := db.rows.filter (fun r => r.id != id) }, decide (changes > 0))

/-- Model of `getProfiles()`. -/
def getProfiles (db : Db) : Except DbError (List Profile) :=
  if db.failing then .error .sqlite else .ok db.rows

/-- Model of the `'database-handler'` handler for the requests `'Get'` and
`'Delete'`: the store afterwards and the value returned. -/
def databaseHandler (db : Db) (data : Option DbRequest) : Db × Reply :=
  match data with
  | none => (db, .undefined)
  | some .get =>
    match getProfiles db with
    | .ok profiles => (db, .profiles profiles)
    | .error e => (db, .rejected e)
  | some (.delete none) => (db, .undefined)
  | some (.delete (some id)) =>
    if id = 0 then (db, .undefined)
    else
      match deleteProfile db id with
      | .ok r => (r.1, .bool true)
      | .error _ => (db, .bool false)

/-- The ids listed by a `'Get'` reply. -/
def Reply.ids : Reply → List Int
  | .profiles rows => rows.map (fun r => r.id)
  | _ => []

/-- Whether `doc[key] === true`. -/
def flagSet (doc : Document) (key : String) : Bool :=
  match doc.get key with
  | some (.bool true) => true
  | _ => false

/-- The repeat-mode invariant of a settings document: exactly one of
`loopInput` and `repeatSetTimesInput` is `true`. A value that is not an object
has neither property. -/
def exactlyOneRepeatMode : Value → Bool
  | .obj doc => xor (flagSet doc "loopInput") (flagSet doc "repeatSetTimesInput")
  | _ => false

/-- The repeat-mode invariant of the file `options.json`: it can be read and
its content satisfies the invariant. -/
def SettingsFile.repeatModeOk (file : SettingsFile) : Bool :=
  match file.content with
  | some options => exactlyOneRepeatMode options
  | none => false

/-! ## Scheduler: states of particular runs -/

/-- State of a bounded single-click run after the synchronous cycle and `j`
further ticks that each clicked. -/
def singleRunState (b : Button) (interval : Option Nat) (n : Nat) (j : Nat) : State :=
  { running := true
    autoClickInterval := some 0
    isMouseButtonHold := none
    holdMouseButton := none
    currentNumber := (j : Int) + 1
    timers := [{ id := 0, input := b, type := .single, repeatField := .count n,
                 interval := interval }]
    nextTimer := 1
    log := List.replicate (j + 1) (.mouseClick b) }

/-- State in which a bounded single-click run ends. -/
def singleRunFinal (b : Button) (n : Nat) : State :=
  { running := false
    autoClickInterval := some 0
    isMouseButtonHold := none
    holdMouseButton := none
    currentNumber := 0
    timers := []
    nextTimer := 1
    log := List.replicate n (.mouseClick b) ++ [.autoclickStopped true] }

/-- State after a hold start from the initial state, with the counter at `c`. -/
def holdRunState (b : Button) (c : Int) : State :=
  { running := true
    autoClickInterval := none
    isMouseButtonHold := some true
    holdMouseButton := some b
    currentNumber := c
    timers := []
    nextTimer := 0
    log := [.mouseToggle .down (some b)] }

/-- State reached from the initial state by a single-click start of button `b`
with a count above `k`, `k` click cycles in all, and a stop: the counter is left
at `k`. -/
def staleState (b : Button) (k : Nat) : State :=
  { running := true
    autoClickInterval := some 0
    isMouseButtonHold := none
    holdMouseButton := none
    currentNumber := (k : Int)
    timers := []
    nextTimer := 1
    log := List.replicate k (.mouseClick b) }

/-! ## Properties of the scheduler -/

/-! ### Bounded single-click run -/

/-- A click cycle keeps the counter between 0 and 2^53. -/
theorem mouseButtonClick_counter_bounds (s : State) (b : Button) (ty : ClickType) (rep : Repeat)
    (h : 0 ≤ s.currentNumber ∧ s.currentNumber ≤ maxCount) :
    0 ≤ (mouseButtonClick s b ty rep).currentNumber ∧
      (mouseButtonClick s b ty rep).currentNumber ≤ maxCount := by
  obtain ⟨h0, h1⟩ := h
  cases rep with
  | loop => cases ty <;> simp [mouseButtonClick, mouseButtonTypeInputs, emit, h0, h1]
  | nan => simp [mouseButtonClick, h0, h1]
  | count n =>
    have hm : (0 : Int) ≤ maxCount := by simp [maxCount]
    have hi : 0 ≤ increment s.currentNumber ∧ increment s.currentNumber ≤ maxCount := by
      unfold increment
      split <;> omega
    simp only [mouseButtonClick]
    split
    · cases ty <;> simp [mouseButtonTypeInputs, emit, hi.1, hi.2]
    · split
      · simp [emit, hm]
      · exact ⟨h0, h1⟩

/-- Every event keeps the counter between 0 and 2^53. -/
theorem step_counter_bounds (s : State) (e : Event)
    (h : 0 ≤ s.currentNumber ∧ s.currentNumber ≤ maxCount) :
    0 ≤ (step s e).currentNumber ∧ (step s e).currentNumber ≤ maxCount := by
  cases e with
  | start data =>
    cases data with
    | none => exact h
    | some d =>
      obtain ⟨i, t, r, iv⟩ := d
      cases i with
      | none => exact h
      | some i =>
        cases t with
        | none => exact h
        | some t =>
          cases r with
          | none => exact h
          | some r =>
            have hb := mouseButtonClick_counter_bounds s i t r h
            simp only [step, startAutoclickHandler, startAutoClick, setInterval]
            split <;> exact hb
  | stop =>
    simp only [step]
    rw [show (stopAutoclickHandler s).currentNumber = s.currentNumber from by
      by_cases hh : s.isMouseButtonHold = some true <;>
        cases ha : s.autoClickInterval <;>
        simp [stopAutoclickHandler, clearInterval, emit, hh, ha]]
    exact h
  | tick id =>
    simp only [step, tick]
    split
    · exact h
    · exact mouseButtonClick_counter_bounds s _ _ _ h
  | hotkey =>
    simp only [step, hotkeyF9]
    split <;> exact h

/-- Along every run from the initial state the counter stays between 0 and
2^53, the range on which `increment` follows the double arithmetic of
`currentNumber++`. -/
theorem run_counter_bounds (events : List Event) :
    0 ≤ (run State.init events).currentNumber ∧
      (run State.init events).currentNumber ≤ maxCount := by
  have key : ∀ (evs : List Event) (s : State),
      0 ≤ s.currentNumber ∧ s.currentNumber ≤ maxCount →
      0 ≤ (run s evs).currentNumber ∧ (run s evs).currentNumber ≤ maxCount := by
    intro evs
    induction evs with
    | nil => intro s h; exact h
    | cons e rest ih =>
      intro s h
      simp only [run, List.foldl_cons]
      exact ih (step s e) (step_counter_bounds s e h)
  exact key events State.init (by simp [State.init, maxCount])

/-- The synchronous cycle of a single-click start with count `n ≥ 1` clicks
once, and `startAutoClick` arms timer 0. -/
theorem start_single (b : Button) (interval : Option Nat) (n : Nat) (hn : 1 ≤ n) :
    startAutoclickHandler State.init
      (some ⟨some b, some .single, some (.count n), interval⟩)
      = singleRunState b interval n 0 := by
  have h : (0 : Int) < (n : Int) := by omega
  simp [startAutoclickHandler, startAutoClick, mouseButtonClick, mouseButtonTypeInputs,
    setInterval, emit, State.init, singleRunState, increment, maxCount, h]

/-- While the counter is below `n` and below 2^53, a tick clicks once more. -/
theorem tick_single_click (b : Button) (interval : Option Nat) (n j : Nat) (hj : j + 1 < n)
    (hmax : j + 1 < 9007199254740992) :
    tick (singleRunState b interval n j) 0 = singleRunState b interval n (j + 1) := by
  have h : (j : Int) + 1 < (n : Int) := by omega
  have h2 : (j : Int) + 1 < 9007199254740992 := by omega
  simp [tick, mouseButtonClick, mouseButtonTypeInputs, emit, singleRunState, increment,
    maxCount, h, h2, List.replicate_succ']

/-- The tick that finds the counter equal to `n` stops the run. -/
theorem tick_single_last (b : Button) (interval : Option Nat) (n j : Nat) (hj : j + 1 = n) :
    tick (singleRunState b interval n j) 0 = singleRunFinal b n := by
  subst hj
  simp [tick, mouseButtonClick, clearInterval, emit, singleRunState, singleRunFinal]

/-- In the final state timer 0 is no longer armed, so no further firing
happens. -/
theorem fire_single_final (b : Button) (n fuel : Nat) :
    fireUntilCancelled fuel 0 (singleRunFinal b n) = some (singleRunFinal b n) := by
  cases fuel <;> simp [fireUntilCancelled, armed, singleRunFinal]

/-- From the state after `j` click ticks, `n - j` firings are enough to reach
the final state. -/
theorem fire_single (b : Button) (interval : Option Nat) (n : Nat)
    (hmax : n ≤ 9007199254740992) :
    ∀ fuel j, j + 1 ≤ n → n ≤ j + fuel →
      fireUntilCancelled fuel 0 (singleRunState b interval n j) = some (singleRunFinal b n) := by
  intro fuel
  induction fuel with
  | zero => intro j h1 h2; omega
  | succ fuel ih =>
    intro j h1 h2
    have ha : armed (singleRunState b interval n j) 0 = true := by
      simp [armed, singleRunState]
    rw [fireUntilCancelled, if_pos ha]
    by_cases hlt : j + 1 < n
    · rw [tick_single_click b interval n j hlt (by omega)]
      exact ih (j + 1) hlt (by omega)
    · rw [tick_single_last b interval n j (by omega)]
      exact fire_single_final b n fuel

/-- The first `j < n` ticks of the run all click, as long as the counter stays
within 2^53. -/
theorem run_single_ticks (b : Button) (interval : Option Nat) (n : Nat) :
    ∀ j, j < n → j < 9007199254740992 →
      run (singleRunState b interval n 0) (List.replicate j (Event.tick 0))
        = singleRunState b interval n j := by
  intro j
  induction j with
  | zero => intro _ _; rfl
  | succ j ih =>
    intro hj hmax
    rw [List.replicate_succ', run, List.foldl_append]
    have := ih (by omega) (by omega)
    rw [run] at this
    rw [this]
    simpa [step] using tick_single_click b interval n j hj hmax

/-- Counts of the effects in the final log. -/
theorem log_single_final (b : Button) (n : Nat) :
    clicks b (singleRunFinal b n).log = n ∧ stoppedNotifications (singleRunFinal b n).log = 1 := by
  simp [clicks, stoppedNotifications, singleRunFinal, List.count_replicate]

/-- A tick of a single-click run whose count lies above 2^53 clicks, leaves the
timer armed and sends no notification: the counter cannot get past 2^53. -/
theorem tick_single_stuck (b : Button) (interval : Option Nat) (n : Int) (s : State)
    (hn : maxCount < n)
    (h : s.timers = [{ id := 0, input := b, type := .single, repeatField := .count n,
                       interval := interval }] ∧
      s.currentNumber ≤ maxCount ∧ stoppedNotifications s.log = 0) :
    (tick s 0).timers = [{ id := 0, input := b, type := .single, repeatField := .count n,
                           interval := interval }] ∧
      (tick s 0).currentNumber ≤ maxCount ∧ stoppedNotifications (tick s 0).log = 0 := by
  obtain ⟨ht, hc, hl⟩ := h
  have hlt : s.currentNumber < n := by omega
  have hi : increment s.currentNumber ≤ maxCount := by
    unfold increment
    split <;> omega
  have hl2 : List.count (Effect.autoclickStopped true) s.log = 0 := hl
  simp [tick, ht, mouseButtonClick, mouseButtonTypeInputs, emit, hlt, hi, stoppedNotifications,
    List.count_append, hl2]

/-- A single-click run whose count lies above 2^53 is never cancelled by its
own ticks and never notifies the renderer. -/
theorem run_single_stuck (b : Button) (interval : Option Nat) (n : Int) (s : State)
    (hn : maxCount < n)
    (h : s.timers = [{ id := 0, input := b, type := .single, repeatField := .count n,
                       interval := interval }] ∧
      s.currentNumber ≤ maxCount ∧ stoppedNotifications s.log = 0) :
    (∀ fuel, fireUntilCancelled fuel 0 s = none) ∧
    ∀ j, stoppedNotifications (run s (List.replicate j (Event.tick 0))).log = 0 := by
  constructor
  · intro fuel
    induction fuel generalizing s with
    | zero => simp [fireUntilCancelled, armed, h.1]
    | succ fuel ih =>
      have ha : armed s 0 = true := by simp [armed, h.1]
      rw [fireUntilCancelled, if_pos ha]
      exact ih (tick s 0) (tick_single_stuck b interval n s hn h)
  · intro j
    induction j generalizing s with
    | zero => exact h.2.2
    | succ j ih =>
      simp only [List.replicate_succ, run, List.foldl_cons, step]
      exact ih (tick s 0) (tick_single_stuck b interval n s hn h)

/-- C1 as stated fails for counts above 2^53. With repeat 9007199254740994
(2^53 + 2) the counter stays at 2^53, below the count: however many times
timer 0 fires it is never cancelled, and `'autoclick-stopped'` is never sent. -/
theorem single_run_above_max_never_stops :
    (∀ fuel, fireUntilCancelled fuel 0
      (startAutoclickHandler State.init
        (some ⟨some .left, some .single, some (.count 9007199254740994), some 100⟩)) = none) ∧
    (∀ j, stoppedNotifications
      (run (startAutoclickHandler State.init
        (some ⟨some .left, some .single, some (.count 9007199254740994), some 100⟩))
        (List.replicate j (Event.tick 0))).log = 0) :=
  run_single_stuck .left (some 100) 9007199254740994 _ (by decide)
    ⟨by decide, by decide, by decide⟩

/-- C1, amended. Starting from the initial state, a `'start-autoclick'` request
of type `'single'` with repeat count `n`, `1 ≤ n ≤ 2^53`, performs one click
synchronously and arms timer 0; the timer stays armed through its first `n - 1`
ticks, and firing it until it is cancelled (any fuel of at least `n` firings
suffices) ends in a state whose log is exactly `n` calls `robot.mouseClick(b)`
followed by one `'autoclick-stopped' {success: true}`, with `running = false`,
`currentNumber = 0` and no timer armed. -/
theorem bounded_single_click_run (b : Button) (interval : Option Nat) (n : Nat) (hn : 1 ≤ n)
    (hmax : n ≤ 9007199254740992) :
    (startAutoclickHandler State.init
        (some ⟨some b, some .single, some (.count n), interval⟩)).log = [.mouseClick b] ∧
    (∀ j, j < n →
      armed (run (startAutoclickHandler State.init
        (some ⟨some b, some .single, some (.count n), interval⟩))
          (List.replicate j (Event.tick 0))) 0 = true) ∧
    ∀ fuel, n ≤ fuel →
      ∃ s, fireUntilCancelled fuel 0
            (startAutoclickHandler State.init
              (some ⟨some b, some .single, some (.count n), interval⟩)) = some s ∧
        s.log = List.replicate n (.mouseClick b) ++ [.autoclickStopped true] ∧
        clicks b s.log = n ∧ stoppedNotifications s.log = 1 ∧
        (∀ e ∈ s.log, e = .mouseClick b ∨ e = .autoclickStopped true) ∧
        s.running = false ∧ s.currentNumber = 0 ∧ s.timers = [] := by
  rw [start_single b interval n hn]
  refine ⟨by simp [singleRunState], ?_, ?_⟩
  · intro j hj
    rw [run_single_ticks b interval n j hj (by omega)]
    simp [armed, singleRunState]
  · intro fuel hf
    refine ⟨singleRunFinal b n, fire_single b interval n hmax fuel 0 hn (by omega),
      rfl, (log_single_final b n).1, (log_single_final b n).2, ?_, rfl, rfl, rfl⟩
    intro e he
    simp [singleRunFinal, List.mem_replicate] at he
    rcases he with ⟨_, h⟩ | h
    · exact Or.inl h
    · exact Or.inr h

/-- A left-button run of three clicks at 100 ms: three firings of timer 0 end
it. -/
theorem bounded_single_click_run_witness :
    (1 ≤ 3 ∧ 3 ≤ 9007199254740992) ∧
    ∃ s, fireUntilCancelled 3 0
          (startAutoclickHandler State.init
            (some ⟨some .left, some .single, some (.count 3), some 100⟩)) = some s ∧
      s.log = [.mouseClick .left, .mouseClick .left, .mouseClick .left, .autoclickStopped true] ∧
      s.running = false ∧ s.currentNumber = 0 ∧ s.timers = [] := by
  refine ⟨by decide, ?_⟩
  obtain ⟨s, h1, h2, -, -, -, h3, h4, h5⟩ :=
    (bounded_single_click_run .left (some 100) 3 (by decide) (by decide)).2.2 3 (le_refl 3)
  exact ⟨s, h1, by simpa using h2, h3, h4, h5⟩

/-! ### Hold -/

/-- With no timer armed a tick does nothing. -/
theorem tick_no_timer (s : State) (id : Nat) (h : s.timers = []) : tick s id = s := by
  simp [tick, h]

/-- With no timer armed any sequence of ticks does nothing. -/
theorem run_ticks_no_timer (s : State) (h : s.timers = []) (ticks : List Nat) :
    run s (ticks.map Event.tick) = s := by
  induction ticks with
  | nil => rfl
  | cons id rest ih =>
    simp only [List.map_cons, run, List.foldl_cons, step]
    rw [tick_no_timer s id h]
    exact ih

/-- A second `'stop-autoclick'` right after a first changes nothing. -/
theorem stop_idempotent (s : State) :
    stopAutoclickHandler (stopAutoclickHandler s) = stopAutoclickHandler s := by
  by_cases h : s.isMouseButtonHold = some true <;>
    cases ha : s.autoClickInterval <;>
    simp [stopAutoclickHandler, clearInterval, emit, h, ha, List.filter_filter]

/-- One or more stops in a row act as a single stop. -/
theorem run_stops (s : State) (k : Nat) :
    run s (List.replicate (k + 1) Event.stop) = stopAutoclickHandler s := by
  induction k with
  | zero => rfl
  | succ k ih =>
    rw [List.replicate_succ', run, List.foldl_append]
    rw [run] at ih
    rw [ih]
    simp [step, stop_idempotent]

/-- A hold start from the initial state presses the button once and arms no
timer. -/
theorem start_hold (b : Button) (rep : Repeat) (interval : Option Nat)
    (hrep : rep = .loop ∨ ∃ n : Nat, 1 ≤ n ∧ rep = .count n) :
    ∃ c : Int,
      startAutoclickHandler State.init (some ⟨some b, some .hold, some rep, interval⟩)
        = holdRunState b c := by
  rcases hrep with h | ⟨n, hn, h⟩
  · subst h
    exact ⟨0, by simp [startAutoclickHandler, startAutoClick, mouseButtonClick,
      mouseButtonTypeInputs, emit, State.init, holdRunState]⟩
  · subst h
    have h0 : (0 : Int) < (n : Int) := by omega
    exact ⟨1, by simp [startAutoclickHandler, startAutoClick, mouseButtonClick,
      mouseButtonTypeInputs, emit, State.init, holdRunState, increment, maxCount, h0]⟩

/-- C2. From the initial state, a `'start-autoclick'` of type `'hold'` (repeat
`'loop'` or a count `n ≥ 1`) followed by any timer ticks has emitted exactly one
`robot.mouseToggle('down', b)` and nothing else and has armed no timer; the
first `'stop-autoclick'` adds exactly one `robot.mouseToggle('up', b)`, and
after `k ≥ 1` consecutive stops the log is still those two events. -/
theorem hold_one_press_one_release (b : Button) (rep : Repeat) (interval : Option Nat)
    (hrep : rep = .loop ∨ ∃ n : Nat, 1 ≤ n ∧ rep = .count n)
    (ticks : List Nat) (k : Nat) (hk : 1 ≤ k) :
    (run (startAutoclickHandler State.init (some ⟨some b, some .hold, some rep, interval⟩))
        (ticks.map Event.tick)).log = [.mouseToggle .down (some b)] ∧
    (run (startAutoclickHandler State.init (some ⟨some b, some .hold, some rep, interval⟩))
        (ticks.map Event.tick)).timers = [] ∧
    (run (startAutoclickHandler State.init (some ⟨some b, some .hold, some rep, interval⟩))
        (ticks.map Event.tick ++ [Event.stop])).log
      = [.mouseToggle .down (some b), .mouseToggle .up (some b)] ∧
    (run (startAutoclickHandler State.init (some ⟨some b, some .hold, some rep, interval⟩))
        (ticks.map Event.tick ++ List.replicate k Event.stop)).log
      = [.mouseToggle .down (some b), .mouseToggle .up (some b)] := by
  obtain ⟨c, hc⟩ := start_hold b rep interval hrep
  obtain ⟨k, rfl⟩ : ∃ j, k = j + 1 := ⟨k - 1, by omega⟩
  have hrun := run_ticks_no_timer (holdRunState b c) rfl ticks
  have hstop := run_stops (holdRunState b c) k
  simp only [run, List.foldl_append] at hrun hstop ⊢
  rw [hc, hrun, hstop]
  simp [stopAutoclickHandler, clearInterval, emit, step, holdRunState]

/-- A right-button hold with count 5, two ticks and three stops: one press,
one release. -/
theorem hold_one_press_one_release_witness :
    (Repeat.count 5 = .loop ∨ ∃ n : Nat, 1 ≤ n ∧ Repeat.count 5 = .count n) ∧ 1 ≤ 3 ∧
    (run State.init
        ([Event.start (some ⟨some .right, some .hold, some (.count 5), some 10⟩),
          .tick 0, .tick 0, .stop, .stop, .stop])).log
      = [.mouseToggle .down (some .right), .mouseToggle .up (some .right)] :=
  ⟨Or.inr ⟨5, by decide, rfl⟩, by decide,
    (hold_one_press_one_release .right (.count 5) (some 10)
      (Or.inr ⟨5, by decide, rfl⟩) [0, 0] 3 (by decide)).2.2.2⟩

/-! ### Stop -/

/-- Clearing the handle that every armed timer carries leaves no timer armed. -/
theorem clearInterval_recorded (s : State) (a : Option Nat)
    (h : ∀ t ∈ s.timers, a = some t.id) : (clearInterval s a).timers = [] := by
  cases a with
  | none =>
    cases hts : s.timers with
    | nil => simp [clearInterval, hts]
    | cons t rest => exact absurd (h t (by simp [hts])) (by simp)
  | some i =>
    simp only [clearInterval, List.filter_eq_nil_iff]
    intro t ht
    have := h t ht
    simp only [Option.some.injEq] at this
    simp [this]

/-- When every armed timer is the one recorded in `autoClickInterval`,
`'stop-autoclick'` leaves no timer armed. -/
theorem stop_clears_recorded_timer (s : State)
    (h : ∀ t ∈ s.timers, s.autoClickInterval = some t.id) :
    (stopAutoclickHandler s).timers = [] := by
  unfold stopAutoclickHandler
  by_cases hh : s.isMouseButtonHold = some true
  · simp only [hh, if_true]
    exact clearInterval_recorded _ _ (by simpa [emit] using h)
  · simp only [hh, if_false]
    exact clearInterval_recorded _ _ h

/-- C3, at the failing input. Two `'start-autoclick'` requests in a row arm two
timers, and `autoClickInterval` keeps only the second handle: after
`'stop-autoclick'` timer 0 is still armed, and its next tick runs a click cycle
(a third `robot.mouseClick`) although no start was issued after the stop. -/
theorem stop_leaves_earlier_timer_armed :
    armed (run State.init
      [.start (some ⟨some .left, some .single, some .loop, some 100⟩),
       .start (some ⟨some .left, some .single, some .loop, some 100⟩),
       .stop]) 0 = true ∧
    (run State.init
      [.start (some ⟨some .left, some .single, some .loop, some 100⟩),
       .start (some ⟨some .left, some .single, some .loop, some 100⟩),
       .stop]).log = [.mouseClick .left, .mouseClick .left] ∧
    (run State.init
      [.start (some ⟨some .left, some .single, some .loop, some 100⟩),
       .start (some ⟨some .left, some .single, some .loop, some 100⟩),
       .stop, .tick 0]).log = [.mouseClick .left, .mouseClick .left, .mouseClick .left] := by
  decide

/-- C4, at the failing input. A hold start for the left button followed by a
hold start for the right button presses both and records only the right one;
`'stop-autoclick'` releases the right button and the left button stays
pressed. -/
theorem stop_leaves_button_pressed :
    (run State.init
      [.start (some ⟨some .left, some .hold, some .loop, some 100⟩),
       .start (some ⟨some .right, some .hold, some .loop, some 100⟩),
       .stop]).log
      = [.mouseToggle .down (some .left), .mouseToggle .down (some .right),
         .mouseToggle .up (some .right)] ∧
    pressed [] (run State.init
      [.start (some ⟨some .left, some .hold, some .loop, some 100⟩),
       .start (some ⟨some .right, some .hold, some .loop, some 100⟩),
       .stop]).log = [.left] := by
  decide

/-! ### Start with missing inputs -/

/-- C6 as stated fails: a request whose `interval` is missing while `input`,
`type` and `repeat` are present is not a no-op. From the initial state it
clicks once, arms timer 0 and sets `running`. -/
theorem start_missing_interval_not_noop :
    (StartData.mk (some .left) (some .single) (some .loop) none).interval = none ∧
    (startAutoclickHandler State.init
      (some ⟨some .left, some .single, some .loop, none⟩)).log = [.mouseClick .left] ∧
    armed (startAutoclickHandler State.init
      (some ⟨some .left, some .single, some .loop, none⟩)) 0 = true ∧
    (startAutoclickHandler State.init
      (some ⟨some .left, some .single, some .loop, none⟩)).running = true ∧
    startAutoclickHandler State.init
      (some ⟨some .left, some .single, some .loop, none⟩) ≠ State.init := by
  decide

/-- C6, amended. A `'start-autoclick'` request whose payload is missing, or in
which `input`, `type` or `repeat` is missing, leaves the whole state as it was:
no effect is logged, no timer is armed, and `running`, `currentNumber` and the
hold variables are unchanged. -/
theorem start_missing_input_noop (s : State) (data : Option StartData)
    (h : data = none ∨ ∃ d, data = some d ∧
      (d.input = none ∨ d.type = none ∨ d.repeatField = none)) :
    startAutoclickHandler s data = s := by
  rcases h with rfl | ⟨d, rfl, h⟩
  · rfl
  · obtain ⟨i, t, r, iv⟩ := d
    rcases h with h | h | h <;> simp only at h <;> subst h
    · rfl
    · cases i <;> rfl
    · cases i <;> cases t <;> rfl

/-- A request without `type`, handled in the initial state, changes nothing. -/
theorem start_missing_input_noop_witness :
    ((some (StartData.mk (some .left) none (some .loop) (some 100)) = none ∨
      ∃ d, some (StartData.mk (some .left) none (some .loop) (some 100)) = some d ∧
        (d.input = none ∨ d.type = none ∨ d.repeatField = none))) ∧
    startAutoclickHandler State.init
      (some ⟨some .left, none, some .loop, some 100⟩) = State.init :=
  ⟨Or.inr ⟨_, rfl, Or.inr (Or.inl rfl)⟩,
   start_missing_input_noop State.init _ (Or.inr ⟨_, rfl, Or.inr (Or.inl rfl)⟩)⟩

/-! ### Hotkey -/

/-- C9 as stated fails when `running` is `true`: the two F9 callbacks send the
stop notification first and the start notification second. -/
theorem hotkey_twice_running_order :
    (hotkeyF9 (hotkeyF9 { State.init with running := true })).log
      = [.backgroundHotkeys false, .backgroundHotkeys true] ∧
    (hotkeyF9 (hotkeyF9 { State.init with running := true })).log
      ≠ [.backgroundHotkeys true, .backgroundHotkeys false] := by
  decide

/-- C9, amended. Two F9 callbacks in a row leave `running` at its original
value and every other variable unchanged, and add exactly two
`'background-hotkeys'` notifications, one start and one stop: start then stop
when `running` was `false`, stop then start when it was `true`. -/
theorem hotkey_twice (s : State) :
    (hotkeyF9 (hotkeyF9 s)).running = s.running ∧
    (hotkeyF9 (hotkeyF9 s)).log
      = s.log ++ (if s.running then [.backgroundHotkeys false, .backgroundHotkeys true]
                  else [.backgroundHotkeys true, .backgroundHotkeys false]) ∧
    hotkeyF9 (hotkeyF9 s) = { s with log := (hotkeyF9 (hotkeyF9 s)).log } := by
  cases hr : s.running <;> simp [hotkeyF9, emit, hr]

/-! ### Stale counter -/

/-- The stop handler never writes `currentNumber`. -/
theorem stop_keeps_currentNumber (s : State) :
    (stopAutoclickHandler s).currentNumber = s.currentNumber := by
  by_cases h : s.isMouseButtonHold = some true <;>
    cases ha : s.autoClickInterval <;>
    simp [stopAutoclickHandler, clearInterval, emit, h, ha]

/-- With the counter above the count, neither branch of the default case is
taken. -/
theorem mouseButtonClick_stale (s : State) (b : Button) (ty : ClickType) (n : Int)
    (h : n < s.currentNumber) : mouseButtonClick s b ty (.count n) = s := by
  have h1 : ¬ s.currentNumber < n := by omega
  have h2 : ¬ s.currentNumber = n := by omega
  simp [mouseButtonClick, h1, h2]

/-- When every armed timer carries a count below the counter, a tick does
nothing. -/
theorem tick_stale (s : State) (id : Nat)
    (h : ∀ t ∈ s.timers, ∃ n : Int, t.repeatField = .count n ∧ n < s.currentNumber) :
    tick s id = s := by
  unfold tick
  cases hf : s.timers.find? (fun t => t.id == id) with
  | none => rfl
  | some t =>
    obtain ⟨n, hn, hlt⟩ := h t (List.mem_of_find?_eq_some hf)
    simp only [hn]
    exact mouseButtonClick_stale s t.input t.type n hlt

/-- When every armed timer carries a count below the counter, any sequence of
ticks does nothing. -/
theorem run_ticks_stale (s : State) (ticks : List Nat)
    (h : ∀ t ∈ s.timers, ∃ n : Int, t.repeatField = .count n ∧ n < s.currentNumber) :
    run s (ticks.map Event.tick) = s := by
  induction ticks with
  | nil => rfl
  | cons id rest ih =>
    simp only [List.map_cons, run, List.foldl_cons, step]
    rw [tick_stale s id h]
    exact ih

/-- A single-click start with count `m > k`, `k - 1` ticks and a stop leave the
counter at `k` with no timer armed, for `k` up to 2^53. -/
theorem reach_stale (b : Button) (interval : Option Nat) (m k : Nat) (hk : 0 < k) (hm : k < m)
    (hmax : k ≤ 9007199254740992) :
    run State.init
      (Event.start (some ⟨some b, some .single, some (.count m), interval⟩) ::
        (List.replicate (k - 1) (Event.tick 0) ++ [Event.stop]))
      = staleState b k := by
  have h1 := start_single b interval m (by omega)
  have h2 := run_single_ticks b interval m (k - 1) (by omega) (by omega)
  simp only [run, List.foldl_cons, List.foldl_append, List.foldl_nil, step] at h2 ⊢
  rw [h1, h2]
  have hk1 : k - 1 + 1 = k := by omega
  have hk2 : ((k - 1 : Nat) : Int) + 1 = (k : Int) := by omega
  simp [stopAutoclickHandler, clearInterval, singleRunState, staleState, hk1, hk2]

/-- C10. `'stop-autoclick'` never changes `currentNumber`; a single-click start
with count `m > k`, `k` click cycles in all and a stop reach a state with
`currentNumber = k` and no timer (for the values `k ≤ 2^53` that the counter
takes); in any state with `currentNumber = k`,
`mouseButtonClick(button, type, n)` with `n < k` (so in particular with
`1 ≤ n < k`) changes nothing; and a `'start-autoclick'` with repeat `n` issued
in the reached state, followed by any timer ticks, logs no effect at all, keeps
`currentNumber = k` and `running = true` and leaves its timer armed, until a
stop disarms it. -/
theorem stale_counter_silences_bounded_run (b0 b : Button) (ty : ClickType)
    (interval0 interval : Option Nat) (m k n : Nat)
    (hk : 0 < k) (hm : k < m) (hnk : n < k) :
    (∀ s : State, (stopAutoclickHandler s).currentNumber = s.currentNumber) ∧
    (k ≤ 9007199254740992 →
      run State.init
        (Event.start (some ⟨some b0, some .single, some (.count m), interval0⟩) ::
          (List.replicate (k - 1) (Event.tick 0) ++ [Event.stop])) = staleState b0 k) ∧
    (staleState b0 k).currentNumber = k ∧ (staleState b0 k).timers = [] ∧
    (∀ s : State, s.currentNumber = k → mouseButtonClick s b ty (.count n) = s) ∧
    ∀ ticks : List Nat,
      (run (staleState b0 k)
        (Event.start (some ⟨some b, some ty, some (.count n), interval⟩) ::
          ticks.map Event.tick)).log = (staleState b0 k).log ∧
      (run (staleState b0 k)
        (Event.start (some ⟨some b, some ty, some (.count n), interval⟩) ::
          ticks.map Event.tick)).currentNumber = k ∧
      (run (staleState b0 k)
        (Event.start (some ⟨some b, some ty, some (.count n), interval⟩) ::
          ticks.map Event.tick)).running = true ∧
      armed (run (staleState b0 k)
        (Event.start (some ⟨some b, some ty, some (.count n), interval⟩) ::
          ticks.map Event.tick)) 1 = true ∧
      (run (staleState b0 k)
        (Event.start (some ⟨some b, some ty, some (.count n), interval⟩) ::
          ticks.map Event.tick ++ [Event.stop])).timers = [] := by
  have hlt : (n : Int) < (k : Int) := by omega
  refine ⟨stop_keeps_currentNumber, reach_stale b0 interval0 m k hk hm, rfl, rfl, ?_, ?_⟩
  · intro s hs
    exact mouseButtonClick_stale s b ty n (by rw [hs]; exact hlt)
  · intro ticks
    have hstart : startAutoclickHandler (staleState b0 k)
        (some ⟨some b, some ty, some (.count n), interval⟩)
        = { staleState b0 k with
            autoClickInterval := some 1
            timers := [{ id := 1, input := b, type := ty, repeatField := .count n,
                         interval := interval }]
            nextTimer := 2 } := by
      have hc := mouseButtonClick_stale (staleState b0 k) b ty n hlt
      simp only [startAutoclickHandler]
      rw [hc]
      simp [startAutoClick, setInterval, staleState]
    have hrun := run_ticks_stale
      (startAutoclickHandler (staleState b0 k)
        (some ⟨some b, some ty, some (.count n), interval⟩)) ticks
      (by
        rw [hstart]
        intro t ht
        simp only [List.mem_singleton] at ht
        subst ht
        exact ⟨n, rfl, hlt⟩)
    simp only [run, List.foldl_cons, List.foldl_append, List.foldl_nil, step,
      List.cons_append] at hrun ⊢
    rw [hrun, hstart]
    simp [staleState, armed, stopAutoclickHandler, clearInterval]

/-- A run of five left clicks stopped after three leaves the counter at 3; a
later double-click start of the right button with count 2 and three ticks of
its timer add nothing to the log. -/
theorem stale_counter_silences_bounded_run_witness :
    (0 < 3 ∧ 3 < 5 ∧ 2 < 3) ∧
    run State.init
      [.start (some ⟨some .left, some .single, some (.count 5), some 100⟩),
       .tick 0, .tick 0, .stop] = staleState .left 3 ∧
    (run (staleState .left 3)
      [.start (some ⟨some .right, some .double, some (.count 2), some 100⟩),
       .tick 1, .tick 1, .tick 1]).log = [.mouseClick .left, .mouseClick .left, .mouseClick .left] := by
  have h := stale_counter_silences_bounded_run .left .right .double (some 100) (some 100) 5 3 2
    (by decide) (by decide) (by decide)
  exact ⟨by decide, h.2.1 (by decide), (h.2.2.2.2.2 [1, 1, 1]).1⟩

/-! ## Properties of the profile store and the settings file -/

/-- C5, at the failing input. With a store holding only the profile with id 1,
`deleteProfile(7)` removes nothing and resolves with `false`, yet the
`'Delete'` request with id 7 returns `true`. -/
theorem delete_missing_id_returns_true :
    deleteProfile ⟨[⟨1, [("title", .str "a")]⟩], false⟩ 7
      = .ok (⟨[⟨1, [("title", .str "a")]⟩], false⟩, false) ∧
    databaseHandler ⟨[⟨1, [("title", .str "a")]⟩], false⟩ (some (.delete (some 7)))
      = (⟨[⟨1, [("title", .str "a")]⟩], false⟩, .bool true) := by
  constructor <;> rfl

/-- Whenever sqlite3 reports no error, `'Delete'` with a truthy id returns
`true`, whatever `deleteProfile` resolved with. -/
theorem delete_reply_ignores_changes (db : Db) (id : Int) (hdb : db.failing = false)
    (hid : id ≠ 0) :
    (databaseHandler db (some (.delete (some id)))).2 = .bool true := by
  simp [databaseHandler, deleteProfile, hdb, hid]

/-- After a `'Delete'` that sqlite3 ran without error, the id is not listed by
`'Get'`. -/
theorem delete_removes_id (db : Db) (id : Int) (hdb : db.failing = false) (hid : id ≠ 0) :
    id ∉ (databaseHandler (databaseHandler db (some (.delete (some id)))).1 (some .get)).2.ids := by
  simp [databaseHandler, deleteProfile, getProfiles, hdb, hid, Reply.ids]

/-- Reading a property after an assignment. -/
theorem get_set (doc : Document) (key : String) (value : Value) (k : String) :
    (doc.set key value).get k = if k = key then some value else doc.get k := by
  induction doc with
  | nil =>
    by_cases hk : k = key
    · subst hk; simp [Document.set, Document.get]
    · have hk2 : ¬ key = k := fun h => hk h.symm
      simp [Document.set, Document.get, hk, hk2]
  | cons p rest ih =>
    obtain ⟨pk, pv⟩ := p
    by_cases hp : pk = key
    · subst hp
      by_cases hk : k = pk
      · subst hk; simp [Document.set, Document.get]
      · have hk2 : ¬ pk = k := fun h => hk h.symm
        simp [Document.set, Document.get, hk, hk2]
    · by_cases hk : pk = k
      · subst hk
        simp [Document.set, Document.get, hp]
      · simp [Document.set, Document.get, hp, hk, ih]

/-- On a writable object, saving `loopInput = v` writes `loopInput = v` and
`repeatSetTimesInput = !v`. -/
theorem saveOptions_loopInput (doc : Document) (v : Bool) :
    ∃ doc1 : Document, saveOptions ⟨some (.obj doc), true⟩ FieldId.loopInput (.bool v)
        = ⟨some (.obj doc1), true⟩ ∧
      Document.get doc1 "loopInput" = some (.bool v) ∧
      Document.get doc1 "repeatSetTimesInput" = some (.bool (!v)) := by
  refine ⟨(doc.set "repeatSetTimesInput" (Value.bool v).not).set "loopInput" (.bool v),
    ?_, ?_, ?_⟩
  · simp [saveOptions, getOptions, saveOptionsToFile, Value.truthy, Value.assign,
      FieldId.loopInput]
  · simp [get_set]
  · cases v <;> simp [get_set, Value.not, Value.truthy]

/-- On a writable object, saving `repeatSetTimesInput = v` writes
`repeatSetTimesInput = v` and `loopInput = !v`. -/
theorem saveOptions_repeatSetTimesInput (doc : Document) (v : Bool) :
    ∃ doc2 : Document, saveOptions ⟨some (.obj doc), true⟩ FieldId.repeatSetTimesInput (.bool v)
        = ⟨some (.obj doc2), true⟩ ∧
      Document.get doc2 "repeatSetTimesInput" = some (.bool v) ∧
      Document.get doc2 "loopInput" = some (.bool (!v)) := by
  refine ⟨(doc.set "loopInput" (Value.bool v).not).set "repeatSetTimesInput" (.bool v),
    ?_, ?_, ?_⟩
  · simp [saveOptions, getOptions, saveOptionsToFile, Value.truthy, Value.assign,
      FieldId.repeatSetTimesInput]
  · simp [get_set]
  · cases v <;> simp [get_set, Value.not, Value.truthy]

/-- When `options.json` cannot be written, `saveOptions` leaves it as it
was. -/
theorem saveOptions_write_fails (content : Option Value) (input : FieldId) (value : Value) :
    saveOptions ⟨content, false⟩ input value = ⟨content, false⟩ := by
  simp only [saveOptions, saveOptionsToFile]
  split
  · rfl
  · split
    · rfl
    · split <;> rfl

/-- When the content of `options.json` is not an object, `saveOptions` leaves
the content as it was. -/
theorem saveOptions_not_object (content : Option Value) (writable : Bool) (input : FieldId)
    (value : Value) (h : ∀ doc, content ≠ some (.obj doc)) :
    saveOptions ⟨content, writable⟩ input value = ⟨content, writable⟩ := by
  cases writable with
  | false => exact saveOptions_write_fails content input value
  | true =>
    cases content with
    | none => simp [saveOptions, getOptions, Value.truthy]
    | some options =>
      cases options with
      | obj doc => exact absurd rfl (h doc)
      | null => simp [saveOptions, getOptions, Value.truthy]
      | bool b =>
        cases b <;> simp [saveOptions, getOptions, saveOptionsToFile, Value.truthy, Value.assign]
      | num n =>
        by_cases hn : n = 0 <;>
          simp [saveOptions, getOptions, saveOptionsToFile, Value.truthy, Value.assign, hn]
      | str s =>
        by_cases hs : s = "" <;>
          simp [saveOptions, getOptions, saveOptionsToFile, Value.truthy, Value.assign, hs]
      | arr items =>
        simp [saveOptions, getOptions, saveOptionsToFile, Value.truthy, Value.assign]

/-- C7 as stated fails in two ways. When the write fails, saving
`loopInput = false` over the default document leaves the file as it was, with
`loopInput` still `true`. And the readable file whose content is `[]` is
written back as `[]` after saving `loopInput = true`: no flag is persisted. -/
theorem saveOptions_not_persisted :
    (saveOptions ⟨some (.obj defaultSettings), false⟩ FieldId.loopInput (.bool false)).content
      = some (.obj defaultSettings) ∧
    Document.get defaultSettings "loopInput" = some (.bool true) ∧
    (saveOptions ⟨some (.arr []), true⟩ FieldId.loopInput (.bool true)).content
      = some (.arr []) :=
  ⟨rfl, rfl, rfl⟩

/-- C7, amended. For every settings document that is a JSON object and every
boolean `v`, when `options.json` can be written `saveOptions('loopInput', v)`
writes a document with `loopInput = v` and `repeatSetTimesInput = !v`, and
`saveOptions('repeatSetTimesInput', v)` writes a document with
`repeatSetTimesInput = v` and `loopInput = !v`. When the write fails the file
is left as it was, and a file whose content is not an object keeps its
content. -/
theorem saveOptions_repeat_mode_exclusive (doc : Document) (v : Bool) :
    (∃ doc1 : Document, saveOptions ⟨some (.obj doc), true⟩ FieldId.loopInput (.bool v)
        = ⟨some (.obj doc1), true⟩ ∧
      Document.get doc1 "loopInput" = some (.bool v) ∧
      Document.get doc1 "repeatSetTimesInput" = some (.bool (!v))) ∧
    (∃ doc2 : Document, saveOptions ⟨some (.obj doc), true⟩ FieldId.repeatSetTimesInput (.bool v)
        = ⟨some (.obj doc2), true⟩ ∧
      Document.get doc2 "repeatSetTimesInput" = some (.bool v) ∧
      Document.get doc2 "loopInput" = some (.bool (!v))) ∧
    (∀ (content : Option Value) (input : FieldId) (value : Value),
      saveOptions ⟨content, false⟩ input value = ⟨content, false⟩) ∧
    (∀ (content : Option Value) (writable : Bool) (input : FieldId) (value : Value),
      (∀ d, content ≠ some (.obj d)) →
      saveOptions ⟨content, writable⟩ input value = ⟨content, writable⟩) :=
  ⟨saveOptions_loopInput doc v, saveOptions_repeatSetTimesInput doc v,
    saveOptions_write_fails, saveOptions_not_object⟩

/-- Saving `loopInput = false` over the writable default document, and saving
it over a file holding the number 5. -/
theorem saveOptions_repeat_mode_exclusive_witness :
    (∃ doc1 : Document, saveOptions ⟨some (.obj defaultSettings), true⟩ FieldId.loopInput (.bool false)
        = ⟨some (.obj doc1), true⟩ ∧
      Document.get doc1 "loopInput" = some (.bool false) ∧
      Document.get doc1 "repeatSetTimesInput" = some (.bool true)) ∧
    (∀ d, some (Value.num 5) ≠ some (.obj d)) ∧
    saveOptions ⟨some (.num 5), true⟩ FieldId.loopInput (.bool false)
      = ⟨some (.num 5), true⟩ := by
  have hne : ∀ d : List (String × Value), some (Value.num 5) ≠ some (Value.obj d) := by
    intro d h
    cases h
  exact ⟨(saveOptions_repeat_mode_exclusive defaultSettings false).1, hne,
    (saveOptions_repeat_mode_exclusive defaultSettings false).2.2.2 (some (.num 5)) true
      FieldId.loopInput (.bool false) hne⟩

/-- The save request of `'options-handler'` preserves the repeat-mode invariant
of the file when a flag is given a boolean value. -/
theorem saveOptions_keeps_repeat_mode (file : SettingsFile) (input : FieldId) (value : Value)
    (hinv : file.repeatModeOk = true)
    (hbool : input.name = "loopInput" ∨ input.name = "repeatSetTimesInput" →
      ∃ v, value = .bool v) :
    (optionsHandler file (some (.save input value))).1.repeatModeOk = true := by
  obtain ⟨content, writable⟩ := file
  simp only [optionsHandler]
  cases writable with
  | false => rw [saveOptions_write_fails]; exact hinv
  | true =>
    cases content with
    | none => simp [SettingsFile.repeatModeOk] at hinv
    | some options =>
      cases options with
      | obj doc =>
        have hdoc : xor (flagSet doc "loopInput") (flagSet doc "repeatSetTimesInput") = true := by
          simpa [SettingsFile.repeatModeOk, exactlyOneRepeatMode] using hinv
        by_cases h1 : input.name = "loopInput"
        · obtain ⟨v, rfl⟩ := hbool (Or.inl h1)
          have hs : saveOptions ⟨some (.obj doc), true⟩ input (.bool v)
              = saveOptions ⟨some (.obj doc), true⟩ FieldId.loopInput (.bool v) := by
            simp [saveOptions, h1, FieldId.loopInput]
          obtain ⟨doc1, hs1, hl, hr⟩ := saveOptions_loopInput doc v
          rw [hs, hs1]
          cases v <;> simp [SettingsFile.repeatModeOk, exactlyOneRepeatMode, flagSet, hl, hr]
        · by_cases h2 : input.name = "repeatSetTimesInput"
          · obtain ⟨v, rfl⟩ := hbool (Or.inr h2)
            have hs : saveOptions ⟨some (.obj doc), true⟩ input (.bool v)
                = saveOptions ⟨some (.obj doc), true⟩ FieldId.repeatSetTimesInput (.bool v) := by
              simp [saveOptions, h2, FieldId.repeatSetTimesInput]
            obtain ⟨doc2, hs2, hr, hl⟩ := saveOptions_repeatSetTimesInput doc v
            rw [hs, hs2]
            cases v <;> simp [SettingsFile.repeatModeOk, exactlyOneRepeatMode, flagSet, hl, hr]
          · have e1 : ¬ "loopInput" = input.name := fun h => h1 h.symm
            have e2 : ¬ "repeatSetTimesInput" = input.name := fun h => h2 h.symm
            simpa [saveOptions, getOptions, saveOptionsToFile, Value.truthy, Value.assign, h1, h2,
              SettingsFile.repeatModeOk, exactlyOneRepeatMode, flagSet, get_set, e1, e2]
              using hdoc
      | null => simp [SettingsFile.repeatModeOk, exactlyOneRepeatMode] at hinv
      | bool b => simp [SettingsFile.repeatModeOk, exactlyOneRepeatMode] at hinv
      | num n => simp [SettingsFile.repeatModeOk, exactlyOneRepeatMode] at hinv
      | str s => simp [SettingsFile.repeatModeOk, exactlyOneRepeatMode] at hinv
      | arr items => simp [SettingsFile.repeatModeOk, exactlyOneRepeatMode] at hinv

/-- C8 as stated fails in two ways. From the default document, which satisfies
the invariant, an `'update-profile'` whose option list sets both flags to
`true` (statement accepted by sqlite3, no profile with id 1) replaces the
content of `options.json` by an object in which `loopInput` and
`repeatSetTimesInput` are both `true`. And `saveOptions('loopInput', 'yes')`
writes `repeatSetTimesInput = false` and `loopInput = 'yes'`, so that neither
flag is `true`. -/
theorem update_profile_breaks_repeat_mode :
    (createDefaultOptions ⟨none, true⟩).repeatModeOk = true ∧
    updateStatement [(FieldId.loopInput, .bool true), (FieldId.repeatSetTimesInput, .bool true)]
      = "UPDATE profiles SET loopInput = ?, repeatSetTimesInput = ?, title = ? WHERE id = ?" ∧
    (updateProfileHandler sqliteNoRowMatches ⟨[], false⟩ (createDefaultOptions ⟨none, true⟩)
      (some ⟨.num 1, .str "p",
        [(FieldId.loopInput, .bool true), (FieldId.repeatSetTimesInput, .bool true)]⟩)).2.content
      = some (.obj [("loopInput", .bool true), ("repeatSetTimesInput", .bool true)]) ∧
    (updateProfileHandler sqliteNoRowMatches ⟨[], false⟩ (createDefaultOptions ⟨none, true⟩)
      (some ⟨.num 1, .str "p",
        [(FieldId.loopInput, .bool true), (FieldId.repeatSetTimesInput, .bool true)]⟩)).2.repeatModeOk
      = false ∧
    (saveOptions (createDefaultOptions ⟨none, true⟩) FieldId.loopInput (.str "yes")).repeatModeOk
      = false :=
  ⟨rfl, by decide, rfl, rfl, rfl⟩

/-- C8, amended. On a writable file `createDefaultOptions` writes the default
document, which satisfies the invariant. The save request of
`'options-handler'` (`saveOptions`) preserves the invariant of the file for
every field id and value, provided the value is a boolean when the field is one
of the two flags. `'update-profile'` does not enforce it: when sqlite3 accepts
the update and the file can be written, the content becomes
`convertOptionsFormat(data.options)`, so the invariant holds afterwards exactly
when it holds of that converted list; when sqlite3 rejects the update, the
write fails or the payload is missing, the file is left as it was. -/
theorem repeat_mode_invariant :
    (∀ content : Option Value,
      (createDefaultOptions ⟨content, true⟩).content = some (.obj defaultSettings)) ∧
    exactlyOneRepeatMode (.obj defaultSettings) = true ∧
    (∀ (file : SettingsFile) (input : FieldId) (value : Value),
      file.repeatModeOk = true →
      (input.name = "loopInput" ∨ input.name = "repeatSetTimesInput" → ∃ v, value = .bool v) →
      (optionsHandler file (some (.save input value))).1.repeatModeOk = true) ∧
    (∀ (sqlite : SqliteRun) (db db1 : Db) (file : SettingsFile) (d : UpdateData),
      updateProfileOptions sqlite db d.id d.title d.options = .ok db1 →
      file.writable = true →
      (updateProfileHandler sqlite db file (some d)).2.content
          = some (.obj (convertOptionsFormat d.options)) ∧
        (updateProfileHandler sqlite db file (some d)).2.repeatModeOk
          = exactlyOneRepeatMode (.obj (convertOptionsFormat d.options))) ∧
    (∀ (sqlite : SqliteRun) (db : Db) (file : SettingsFile) (d : UpdateData) (e : DbError),
      updateProfileOptions sqlite db d.id d.title d.options = .error e →
      (updateProfileHandler sqlite db file (some d)).2 = file) ∧
    (∀ (sqlite : SqliteRun) (db : Db) (file : SettingsFile) (d : UpdateData),
      file.writable = false →
      (updateProfileHandler sqlite db file (some d)).2 = file) ∧
    (∀ (sqlite : SqliteRun) (db : Db) (file : SettingsFile),
      (updateProfileHandler sqlite db file none).2 = file) := by
  refine ⟨fun _ => rfl, by decide, saveOptions_keeps_repeat_mode, ?_, ?_, ?_, fun _ _ _ => rfl⟩
  · intro sqlite db db1 file d h hw
    simp [updateProfileHandler, h, saveOptionsToFile, hw, SettingsFile.repeatModeOk]
  · intro sqlite db file d e h
    simp [updateProfileHandler, h]
  · intro sqlite db file d hw
    simp only [updateProfileHandler]
    split
    · rfl
    · simp [saveOptionsToFile, hw]

/-- Saving `loopInput = false` over the default document keeps the invariant,
and an accepted update with the single option `loopInput = false` writes
exactly that converted list. -/
theorem repeat_mode_invariant_witness :
    ((createDefaultOptions ⟨none, true⟩).repeatModeOk = true ∧
      (FieldId.loopInput.name = "loopInput" ∨ FieldId.loopInput.name = "repeatSetTimesInput" →
        ∃ v, Value.bool false = .bool v)) ∧
    (optionsHandler (createDefaultOptions ⟨none, true⟩)
      (some (.save FieldId.loopInput (.bool false)))).1.repeatModeOk = true ∧
    (updateProfileOptions sqliteNoRowMatches ⟨[], false⟩ (.num 1) (.str "p")
        [(FieldId.loopInput, .bool false)] = .ok ⟨[], false⟩ ∧
      (createDefaultOptions ⟨none, true⟩).writable = true) ∧
    (updateProfileHandler sqliteNoRowMatches ⟨[], false⟩ (createDefaultOptions ⟨none, true⟩)
      (some ⟨.num 1, .str "p", [(FieldId.loopInput, .bool false)]⟩)).2.content
      = some (.obj (convertOptionsFormat [(FieldId.loopInput, .bool false)])) :=
  ⟨⟨rfl, fun _ => ⟨false, rfl⟩⟩,
   repeat_mode_invariant.2.2.1 (createDefaultOptions ⟨none, true⟩) FieldId.loopInput
     (.bool false) rfl (fun _ => ⟨false, rfl⟩),
   ⟨rfl, rfl⟩,
   (repeat_mode_invariant.2.2.2.1 sqliteNoRowMatches ⟨[], false⟩ ⟨[], false⟩
     (createDefaultOptions ⟨none, true⟩)
     ⟨.num 1, .str "p", [(FieldId.loopInput, .bool false)]⟩ rfl rfl).1⟩

end ClickAutomator
